import Mathlib

/-!
# Verification of the StellArts booking state machine and escrow payment saga

This file shallowly embeds the parts of the StellArts backend that govern
the booking lifecycle state machine
(`src/backend/app/api/v1/endpoints/booking.py`, `update_booking_status`)
and the escrow payment saga
(`src/backend/app/services/payments.py` together with the
`/payments/submit` endpoint in `src/backend/app/api/v1/endpoints/payments.py`),
and proves or refutes the frozen specification claims about them.

Python strings are embedded as `List Char` (named `Str` below); decimal
amounts are embedded as rationals; the SQLAlchemy session is embedded as an
explicit list of rows with `.first()` = `List.find?`; the external Stellar
network and the possibility of a database-write failure are embedded as
explicit oracle parameters fed to each saga function.
-/

/-- Python strings are embedded as lists of characters. -/
abbrev Str := List Char

/-- Coerce a Lean string literal to the `List Char` embedding. -/
def str (s : String) : Str := s.data

namespace StellArts

/-! ## Booking state machine (`app/models/booking.py`, `BookingStatus`) -/

/-- `BookingStatus` enum from `app/models/booking.py`. -/
inductive BookingStatus where
  | pending
  | confirmed
  | in_progress
  | completed
  | cancelled
deriving DecidableEq, Repr

/-- The `.value` of each `BookingStatus` member (`"pending"`, …). -/
def statusValue : BookingStatus → Str
  | .pending => str "pending"
  | .confirmed => str "confirmed"
  | .in_progress => str "in_progress"
  | .completed => str "completed"
  | .cancelled => str "cancelled"

/-- `BookingStatus(new_status_str)`: parsing a status string, `none` models
the `ValueError` branch. -/
def statusFromString (s : Str) : Option BookingStatus :=
  if s = str "pending" then some .pending
  else if s = str "confirmed" then some .confirmed
  else if s = str "in_progress" then some .in_progress
  else if s = str "completed" then some .completed
  else if s = str "cancelled" then some .cancelled
  else none

/-- User roles as used by `update_booking_status` (string-valued in the
source: `"client"`, `"artisan"`, `"admin"`). -/
inductive Role where
  | client
  | artisan
  | admin
deriving DecidableEq, Repr

/-- The fields of `app.models.user.User` consulted by
`update_booking_status`. -/
structure UserRec where
  id : Nat
  role : Role
deriving DecidableEq, Repr

/-- The fields of `app.models.artisan.Artisan` consulted by
`update_booking_status` (profile row linking a user to an artisan id). -/
structure ArtisanProfile where
  id : Nat
  user_id : Nat
deriving DecidableEq, Repr

/-- The fields of `app.models.client.Client` consulted by
`update_booking_status`. -/
structure ClientProfile where
  id : Nat
  user_id : Nat
deriving DecidableEq, Repr

/-- The fields of `app.models.booking.Booking` consulted by
`update_booking_status`. -/
structure BookingRec where
  id : Nat
  client_id : Nat
  artisan_id : Nat
  status : BookingStatus
deriving DecidableEq, Repr

/-- The database tables consulted by `update_booking_status`; `.first()` on a
filtered query is embedded as `List.find?`. -/
structure StoreDB where
  artisans : List ArtisanProfile
  clients : List ClientProfile
  bookings : List BookingRec
deriving DecidableEq, Repr

/-- `booking.py` lines 171-177: for an artisan-role caller, whether the
first artisan profile with the caller's `user_id` owns this booking
(`is_artisan = user_artisan and booking.artisan_id == user_artisan.id`). -/
def userIsArtisanFor (db : StoreDB) (u : UserRec) (b : BookingRec) : Bool :=
  match db.artisans.find? (fun a => a.user_id == u.id) with
  | some a => b.artisan_id == a.id
  | none => false

/-- `booking.py` lines 178-180: for a client-role caller, whether the first
client profile with the caller's `user_id` owns this booking. -/
def userIsClientFor (db : StoreDB) (u : UserRec) (b : BookingRec) : Bool :=
  match db.clients.find? (fun c => c.user_id == u.id) with
  | some c => b.client_id == c.id
  | none => false

/-- Result of the `update_booking_status` endpoint: either the success
response (carrying the new stored status) or an `HTTPException` with a
status code and detail message. -/
inductive UpdResult where
  | ok (newStatus : BookingStatus)
  | err (code : Nat) (detail : Str)
deriving DecidableEq, Repr

/-- `booking.status = new_status; db.commit()`: the atomic store write keyed
by the booking id. -/
def setStatus (db : StoreDB) (bid : Nat) (s : BookingStatus) : StoreDB :=
  { db with
    bookings := db.bookings.map (fun r => if r.id == bid then { r with status := s } else r) }

/-- The "State Machine Rules" block of `update_booking_status`
(`booking.py` lines 216-287), reached only for a non-admin caller who is
the booking's artisan or client: given `is_artisan`, `is_client`, the
current status and the requested status, returns `some (code, detail)` if
the request raises an `HTTPException` and `none` if the transition is
applied. -/
def stateMachineCheck (is_artisan is_client : Bool) (cur ns : BookingStatus) :
    Option (Nat × Str) :=
  match ns with
  | .confirmed =>
      if cur ≠ .pending then
        some (400, str "Cannot confirm booking from " ++ statusValue cur ++ str " status")
      else if !is_artisan then
        some (403, str "Only the artisan can confirm a booking")
      else none
  | .in_progress =>
      if cur ≠ .confirmed then
        some (400, str "Cannot start booking from " ++ statusValue cur ++ str " status")
      else if !is_artisan then
        some (403, str "Only the artisan can start a booking")
      else none
  | .completed =>
      if cur ≠ .in_progress then
        some (400, str "Cannot complete booking from " ++ statusValue cur ++ str " status")
      else if !is_client then
        some (403, str "Only the client can mark a booking as completed")
      else none
  | .cancelled =>
      if is_client then
        if cur ≠ .pending then
          some (403, str "Clients can only cancel pending bookings")
        else none
      else if is_artisan then
        if !(cur == .pending || cur == .confirmed || cur == .in_progress) then
          some (403, str "Artisans can only cancel pending, confirmed, or in-progress bookings")
        else none
      else none
  | .pending =>
      some (400, str "Invalid status transition to " ++ statusValue ns)

/-- `update_booking_status` (`booking.py` lines 150-293).  The payload's
`status` field is `payload : Option Str`; the result pairs the response (or
raised `HTTPException`) with the database state after the call.  The 404
detail's interpolated booking id is elided from the message text. -/
def updateBookingStatus (db : StoreDB) (bid : Nat) (payload : Option Str)
    (u : UserRec) : UpdResult × StoreDB :=
  match db.bookings.find? (fun r => r.id == bid) with
  | none => (.err 404 (str "Booking not found"), db)
  | some booking =>
    let is_artisan := u.role == .artisan && userIsArtisanFor db u booking
    let is_client := u.role == .client && userIsClientFor db u booking
    if u.role == .admin then
      match payload with
      | none => (.ok booking.status, db)
      | some s =>
        match statusFromString s with
        | none => (.err 400 (str "Invalid status"), db)
        | some ns => (.ok ns, setStatus db bid ns)
    else if !is_artisan && !is_client then
      (.err 403 (str "You are not authorized to update this booking"), db)
    else
      match payload with
      | none => (.err 400 (str "Status is required"), db)
      | some s =>
        match statusFromString s with
        | none => (.err 400 (str "Invalid status"), db)
        | some ns =>
          match stateMachineCheck is_artisan is_client booking.status ns with
          | some cd => (.err cd.1 cd.2, db)
          | none => (.ok ns, setStatus db bid ns)

/-- Parsing inverts printing for every status value. -/
theorem statusFromString_statusValue (s : BookingStatus) :
    statusFromString (statusValue s) = some s := by
  cases s <;> decide

/-- Master unfolding lemma: for a non-admin caller who is the booking's
artisan or client, `update_booking_status` is governed entirely by
`stateMachineCheck`, and a denial leaves the database untouched. -/
theorem updateBookingStatus_nonAdmin (db : StoreDB) (bid : Nat) (u : UserRec)
    (b : BookingRec) (ns : BookingStatus)
    (hfind : db.bookings.find? (fun r => r.id == bid) = some b)
    (hrole : u.role ≠ .admin)
    (hassoc : ((u.role == .artisan && userIsArtisanFor db u b)
        || (u.role == .client && userIsClientFor db u b)) = true) :
    updateBookingStatus db bid (some (statusValue ns)) u =
      match stateMachineCheck (u.role == .artisan && userIsArtisanFor db u b)
          (u.role == .client && userIsClientFor db u b) b.status ns with
      | some cd => (.err cd.1 cd.2, db)
      | none => (.ok ns, setStatus db bid ns) := by
  have hadm : (u.role == Role.admin) = false := by
    cases h : u.role == Role.admin
    · rfl
    · exact absurd (by simpa using h) hrole
  unfold updateBookingStatus
  rw [hfind]
  cases h1 : u.role == Role.artisan && userIsArtisanFor db u b with
  | true =>
    simp [h1, hadm, statusFromString_statusValue]
  | false =>
    cases h2 : u.role == Role.client && userIsClientFor db u b with
    | true =>
      simp [h1, h2, hadm, statusFromString_statusValue]
    | false =>
      rw [h1, h2] at hassoc
      simp at hassoc

/-- If the non-admin caller is neither the booking's artisan nor its client,
`update_booking_status` raises 403 "not authorized" and leaves the store
untouched (`booking.py` lines 199-203). -/
theorem updateBookingStatus_unauth (db : StoreDB) (bid : Nat) (u : UserRec)
    (b : BookingRec) (payload : Option Str)
    (hfind : db.bookings.find? (fun r => r.id == bid) = some b)
    (hrole : u.role ≠ .admin)
    (h : ((u.role == .artisan && userIsArtisanFor db u b)
        || (u.role == .client && userIsClientFor db u b)) = false) :
    updateBookingStatus db bid payload u =
      (.err 403 (str "You are not authorized to update this booking"), db) := by
  have hadm : (u.role == Role.admin) = false := by
    cases hr : u.role == Role.admin
    · rfl
    · exact absurd (by simpa using hr) hrole
  have h1 : (u.role == Role.artisan && userIsArtisanFor db u b) = false :=
    (Bool.or_eq_false_iff.mp h).1
  have h2 : (u.role == Role.client && userIsClientFor db u b) = false :=
    (Bool.or_eq_false_iff.mp h).2
  unfold updateBookingStatus
  rw [hfind]
  simp [hadm, h1, h2]

/-- A `confirmed`-targeted request passes the state-machine rules only when
the caller is the artisan (`is_artisan`); 20-case enumeration of
`stateMachineCheck`. -/
theorem smc_confirmed_none (ia ic : Bool) (cur : BookingStatus)
    (h : stateMachineCheck ia ic cur .confirmed = none) : ia = true := by
  revert h; cases ia <;> cases ic <;> cases cur <;> decide

/-- An `in_progress`-targeted request passes the state-machine rules only
when the caller is the artisan. -/
theorem smc_in_progress_none (ia ic : Bool) (cur : BookingStatus)
    (h : stateMachineCheck ia ic cur .in_progress = none) : ia = true := by
  revert h; cases ia <;> cases ic <;> cases cur <;> decide

/-- A `completed`-targeted request passes the state-machine rules only when
the caller is the client (`is_client`). -/
theorem smc_completed_none (ia ic : Bool) (cur : BookingStatus)
    (h : stateMachineCheck ia ic cur .completed = none) : ic = true := by
  revert h; cases ia <;> cases ic <;> cases cur <;> decide

/-- C4: `update_booking_status` permits `Pending→Confirmed` and
`Confirmed→InProgress` only when the caller is the booking's artisan, and
`InProgress→Completed` only when the caller is the booking's client; each
such transition attempted by the other party in the correct source state
returns 403 Forbidden and leaves the stored status unchanged. -/
theorem booking_update_role_gates
    (db : StoreDB) (bid : Nat) (u : UserRec) (b : BookingRec)
    (hfind : db.bookings.find? (fun r => r.id == bid) = some b) :
    ((b.status = .pending → u.role = .artisan → userIsArtisanFor db u b = true →
      updateBookingStatus db bid (some (statusValue .confirmed)) u
        = (.ok .confirmed, setStatus db bid .confirmed))
    ∧ (b.status = .confirmed → u.role = .artisan → userIsArtisanFor db u b = true →
      updateBookingStatus db bid (some (statusValue .in_progress)) u
        = (.ok .in_progress, setStatus db bid .in_progress))
    ∧ (b.status = .in_progress → u.role = .client → userIsClientFor db u b = true →
      updateBookingStatus db bid (some (statusValue .completed)) u
        = (.ok .completed, setStatus db bid .completed))
    ∧ (b.status = .pending → u.role = .client → userIsClientFor db u b = true →
      updateBookingStatus db bid (some (statusValue .confirmed)) u
        = (.err 403 (str "Only the artisan can confirm a booking"), db))
    ∧ (b.status = .confirmed → u.role = .client → userIsClientFor db u b = true →
      updateBookingStatus db bid (some (statusValue .in_progress)) u
        = (.err 403 (str "Only the artisan can start a booking"), db))
    ∧ (b.status = .in_progress → u.role = .artisan → userIsArtisanFor db u b = true →
      updateBookingStatus db bid (some (statusValue .completed)) u
        = (.err 403 (str "Only the client can mark a booking as completed"), db))
    ∧ (u.role ≠ .admin →
        (updateBookingStatus db bid (some (statusValue .confirmed)) u).1 = .ok .confirmed →
        u.role = .artisan ∧ userIsArtisanFor db u b = true)
    ∧ (u.role ≠ .admin →
        (updateBookingStatus db bid (some (statusValue .in_progress)) u).1 = .ok .in_progress →
        u.role = .artisan ∧ userIsArtisanFor db u b = true)
    ∧ (u.role ≠ .admin →
        (updateBookingStatus db bid (some (statusValue .completed)) u).1 = .ok .completed →
        u.role = .client ∧ userIsClientFor db u b = true)) := by
  refine ⟨?_, ?_, ?_, ?_, ?_, ?_, ?_, ?_, ?_⟩
  · intro hs hr hA
    rw [updateBookingStatus_nonAdmin db bid u b .confirmed hfind
      (by rw [hr]; decide) (by simp [hr, hA])]
    simp [stateMachineCheck, hr, hA, hs]
  · intro hs hr hA
    rw [updateBookingStatus_nonAdmin db bid u b .in_progress hfind
      (by rw [hr]; decide) (by simp [hr, hA])]
    simp [stateMachineCheck, hr, hA, hs]
  · intro hs hr hC
    rw [updateBookingStatus_nonAdmin db bid u b .completed hfind
      (by rw [hr]; decide) (by simp [hr, hC])]
    simp [stateMachineCheck, hr, hC, hs]
  · intro hs hr hC
    rw [updateBookingStatus_nonAdmin db bid u b .confirmed hfind
      (by rw [hr]; decide) (by simp [hr, hC])]
    simp [stateMachineCheck, hr, hC, hs]
  · intro hs hr hC
    rw [updateBookingStatus_nonAdmin db bid u b .in_progress hfind
      (by rw [hr]; decide) (by simp [hr, hC])]
    simp [stateMachineCheck, hr, hC, hs]
  · intro hs hr hA
    rw [updateBookingStatus_nonAdmin db bid u b .completed hfind
      (by rw [hr]; decide) (by simp [hr, hA])]
    simp [stateMachineCheck, hr, hA, hs]
  · intro hrole hok
    cases hb : ((u.role == .artisan && userIsArtisanFor db u b)
        || (u.role == .client && userIsClientFor db u b)) with
    | false =>
      rw [updateBookingStatus_unauth db bid u b _ hfind hrole hb] at hok
      simp at hok
    | true =>
      rw [updateBookingStatus_nonAdmin db bid u b .confirmed hfind hrole hb] at hok
      cases hsmc : stateMachineCheck (u.role == .artisan && userIsArtisanFor db u b)
          (u.role == .client && userIsClientFor db u b) b.status .confirmed with
      | some cd => rw [hsmc] at hok; simp at hok
      | none =>
        have hia := smc_confirmed_none _ _ _ hsmc
        have h' : u.role = .artisan ∧ userIsArtisanFor db u b = true := by simpa using hia
        exact h'
  · intro hrole hok
    cases hb : ((u.role == .artisan && userIsArtisanFor db u b)
        || (u.role == .client && userIsClientFor db u b)) with
    | false =>
      rw [updateBookingStatus_unauth db bid u b _ hfind hrole hb] at hok
      simp at hok
    | true =>
      rw [updateBookingStatus_nonAdmin db bid u b .in_progress hfind hrole hb] at hok
      cases hsmc : stateMachineCheck (u.role == .artisan && userIsArtisanFor db u b)
          (u.role == .client && userIsClientFor db u b) b.status .in_progress with
      | some cd => rw [hsmc] at hok; simp at hok
      | none =>
        have hia := smc_in_progress_none _ _ _ hsmc
        have h' : u.role = .artisan ∧ userIsArtisanFor db u b = true := by simpa using hia
        exact h'
  · intro hrole hok
    cases hb : ((u.role == .artisan && userIsArtisanFor db u b)
        || (u.role == .client && userIsClientFor db u b)) with
    | false =>
      rw [updateBookingStatus_unauth db bid u b _ hfind hrole hb] at hok
      simp at hok
    | true =>
      rw [updateBookingStatus_nonAdmin db bid u b .completed hfind hrole hb] at hok
      cases hsmc : stateMachineCheck (u.role == .artisan && userIsArtisanFor db u b)
          (u.role == .client && userIsClientFor db u b) b.status .completed with
      | some cd => rw [hsmc] at hok; simp at hok
      | none =>
        have hic := smc_completed_none _ _ _ hsmc
        have h' : u.role = .client ∧ userIsClientFor db u b = true := by simpa using hic
        exact h'

/-- C5: cancellation rules of `update_booking_status` — the booking's
client may cancel only a `pending` booking; the booking's artisan may
cancel a `pending`, `confirmed` or `in_progress` booking; attempts by
either party on a `completed` or `cancelled` booking are rejected with 403
and leave the stored status unchanged. -/
theorem booking_cancel_rules
    (db : StoreDB) (bid : Nat) (u : UserRec) (b : BookingRec)
    (hfind : db.bookings.find? (fun r => r.id == bid) = some b) :
    ((b.status = .pending → u.role = .client → userIsClientFor db u b = true →
      updateBookingStatus db bid (some (statusValue .cancelled)) u
        = (.ok .cancelled, setStatus db bid .cancelled))
    ∧ (b.status ≠ .pending → u.role = .client → userIsClientFor db u b = true →
      updateBookingStatus db bid (some (statusValue .cancelled)) u
        = (.err 403 (str "Clients can only cancel pending bookings"), db))
    ∧ ((b.status = .pending ∨ b.status = .confirmed ∨ b.status = .in_progress) →
      u.role = .artisan → userIsArtisanFor db u b = true →
      updateBookingStatus db bid (some (statusValue .cancelled)) u
        = (.ok .cancelled, setStatus db bid .cancelled))
    ∧ ((b.status = .completed ∨ b.status = .cancelled) →
      u.role = .artisan → userIsArtisanFor db u b = true →
      updateBookingStatus db bid (some (statusValue .cancelled)) u
        = (.err 403 (str "Artisans can only cancel pending, confirmed, or in-progress bookings"),
           db))) := by
  refine ⟨?_, ?_, ?_, ?_⟩
  · intro hs hr hC
    rw [updateBookingStatus_nonAdmin db bid u b .cancelled hfind
      (by rw [hr]; decide) (by simp [hr, hC])]
    simp [stateMachineCheck, hr, hC, hs]
  · intro hs hr hC
    rw [updateBookingStatus_nonAdmin db bid u b .cancelled hfind
      (by rw [hr]; decide) (by simp [hr, hC])]
    cases hb : b.status <;>
      first
        | exact absurd hb hs
        | simp [stateMachineCheck, hr, hC, hb]
  · intro hs hr hA
    rw [updateBookingStatus_nonAdmin db bid u b .cancelled hfind
      (by rw [hr]; decide) (by simp [hr, hA])]
    rcases hs with hb | hb | hb <;> simp [stateMachineCheck, hr, hA, hb]
  · intro hs hr hA
    rw [updateBookingStatus_nonAdmin db bid u b .cancelled hfind
      (by rw [hr]; decide) (by simp [hr, hA])]
    rcases hs with hb | hb <;> simp [stateMachineCheck, hr, hA, hb]

/-- The edge set of the spec's §4.1 state machine DAG: the three forward
edges plus cancellation from the three non-terminal states. -/
def isEdge : BookingStatus → BookingStatus → Bool
  | .pending, .confirmed => true
  | .confirmed, .in_progress => true
  | .in_progress, .completed => true
  | .pending, .cancelled => true
  | .confirmed, .cancelled => true
  | .in_progress, .cancelled => true
  | _, _ => false

/-- C6 (amended): for every non-admin caller associated with the booking,
a requested change that is not an edge of the §4.1 state machine is denied
and the stored status is unchanged; the denial detail names the attempted
action together with the source status for changes targeting `confirmed`,
`in_progress` or `completed` ("Cannot confirm/start/complete booking from
X status"), names the caller's allowed source states for cancellation
denials, but for changes targeting `pending` names only the target
("Invalid status transition to pending"), not the source state. -/
theorem booking_nonedge_denied
    (db : StoreDB) (bid : Nat) (u : UserRec) (b : BookingRec) (ns : BookingStatus)
    (hfind : db.bookings.find? (fun r => r.id == bid) = some b)
    (hrole : u.role ≠ .admin)
    (hassoc : ((u.role == .artisan && userIsArtisanFor db u b)
        || (u.role == .client && userIsClientFor db u b)) = true)
    (hne : isEdge b.status ns = false) :
    ((ns = .confirmed →
      updateBookingStatus db bid (some (statusValue ns)) u
        = (.err 400 (str "Cannot confirm booking from " ++ statusValue b.status
            ++ str " status"), db))
    ∧ (ns = .in_progress →
      updateBookingStatus db bid (some (statusValue ns)) u
        = (.err 400 (str "Cannot start booking from " ++ statusValue b.status
            ++ str " status"), db))
    ∧ (ns = .completed →
      updateBookingStatus db bid (some (statusValue ns)) u
        = (.err 400 (str "Cannot complete booking from " ++ statusValue b.status
            ++ str " status"), db))
    ∧ (ns = .pending →
      updateBookingStatus db bid (some (statusValue ns)) u
        = (.err 400 (str "Invalid status transition to " ++ statusValue .pending), db))
    ∧ (ns = .cancelled → (u.role == .client && userIsClientFor db u b) = true →
      updateBookingStatus db bid (some (statusValue ns)) u
        = (.err 403 (str "Clients can only cancel pending bookings"), db))
    ∧ (ns = .cancelled → (u.role == .client && userIsClientFor db u b) = false →
      updateBookingStatus db bid (some (statusValue ns)) u
        = (.err 403 (str "Artisans can only cancel pending, confirmed, or in-progress bookings"),
           db))) := by
  have hmaster := updateBookingStatus_nonAdmin db bid u b ns hfind hrole hassoc
  refine ⟨?_, ?_, ?_, ?_, ?_, ?_⟩
  · intro hns
    subst hns
    rw [hmaster]
    cases hcur : b.status
    case pending => rw [hcur] at hne; simp [isEdge] at hne
    all_goals simp [stateMachineCheck]
  · intro hns
    subst hns
    rw [hmaster]
    cases hcur : b.status
    case confirmed => rw [hcur] at hne; simp [isEdge] at hne
    all_goals simp [stateMachineCheck]
  · intro hns
    subst hns
    rw [hmaster]
    cases hcur : b.status
    case in_progress => rw [hcur] at hne; simp [isEdge] at hne
    all_goals simp [stateMachineCheck]
  · intro hns
    subst hns
    rw [hmaster]
    simp [stateMachineCheck]
  · intro hns hic
    subst hns
    rw [hmaster]
    cases hcur : b.status
    case pending => rw [hcur] at hne; simp [isEdge] at hne
    case confirmed => rw [hcur] at hne; simp [isEdge] at hne
    case in_progress => rw [hcur] at hne; simp [isEdge] at hne
    all_goals simp [stateMachineCheck, hic]
  · intro hns hic
    subst hns
    have hia : (u.role == .artisan && userIsArtisanFor db u b) = true := by
      rw [hic, Bool.or_false] at hassoc
      exact hassoc
    rw [hmaster]
    cases hcur : b.status
    case pending => rw [hcur] at hne; simp [isEdge] at hne
    case confirmed => rw [hcur] at hne; simp [isEdge] at hne
    case in_progress => rw [hcur] at hne; simp [isEdge] at hne
    all_goals simp [stateMachineCheck, hic, hia]

/-! ### Concrete fixtures for the state-machine witnesses -/

/-- A store with one artisan profile (id 10, user 100), one client profile
(id 20, user 200) and one pending booking (id 1) between them. -/
def dbPending : StoreDB :=
  { artisans := [⟨10, 100⟩], clients := [⟨20, 200⟩],
    bookings := [⟨1, 20, 10, .pending⟩] }

/-- Same store, but the booking is already completed. -/
def dbCompleted : StoreDB :=
  { artisans := [⟨10, 100⟩], clients := [⟨20, 200⟩],
    bookings := [⟨1, 20, 10, .completed⟩] }

/-- The artisan-side caller of the fixture booking. -/
def uArt : UserRec := ⟨100, .artisan⟩

/-- The client-side caller of the fixture booking. -/
def uCli : UserRec := ⟨200, .client⟩

/-- Witness for C4: on the concrete pending fixture booking, the client's
attempt to confirm is rejected with 403 and the store is unchanged. -/
theorem booking_update_role_gates_witness :
    updateBookingStatus dbPending 1 (some (statusValue .confirmed)) uCli
      = (.err 403 (str "Only the artisan can confirm a booking"), dbPending) :=
  (booking_update_role_gates dbPending 1 uCli ⟨1, 20, 10, .pending⟩
    (by decide)).2.2.2.1 rfl rfl (by decide)

/-- Witness for C5: on the concrete completed fixture booking, the
artisan's attempt to cancel is rejected with 403 and the store is
unchanged. -/
theorem booking_cancel_rules_witness :
    updateBookingStatus dbCompleted 1 (some (statusValue .cancelled)) uArt
      = (.err 403 (str "Artisans can only cancel pending, confirmed, or in-progress bookings"),
         dbCompleted) :=
  (booking_cancel_rules dbCompleted 1 uArt ⟨1, 20, 10, .completed⟩
    (by decide)).2.2.2 (Or.inl rfl) rfl (by decide)

/-- Witness for C6 (amended): on the concrete pending fixture booking, the
client's request for `completed` (a non-edge) is denied with the detail
naming the source status, and the store is unchanged. -/
theorem booking_nonedge_denied_witness :
    updateBookingStatus dbPending 1 (some (statusValue .completed)) uCli
      = (.err 400 (str "Cannot complete booking from " ++ statusValue .pending
          ++ str " status"), dbPending) :=
  (booking_nonedge_denied dbPending 1 uCli ⟨1, 20, 10, .pending⟩ .completed
    (by decide) (by decide) (by decide) (by decide)).2.2.1 rfl

/-- Same store, but the booking is already confirmed. -/
def dbConfirmed : StoreDB :=
  { artisans := [⟨10, 100⟩], clients := [⟨20, 200⟩],
    bookings := [⟨1, 20, 10, .confirmed⟩] }

/-- C6 counterexample: on a confirmed booking, the client's request for
`pending` (a non-edge) is denied and the status is unchanged — but the
denial detail is "Invalid status transition to pending", which names only
the requested target; the source status "confirmed" appears nowhere in
it, so this error does not identify which invalid transition (from which
state) was attempted, contrary to the claim's "error identifying the
invalid transition" ("invalid transition from X to Y"). -/
theorem nonedge_to_pending_detail_lacks_source :
    updateBookingStatus dbConfirmed 1 (some (statusValue .pending)) uCli
      = (.err 400 (str "Invalid status transition to pending"), dbConfirmed)
  ∧ ¬ (str "confirmed" <:+: str "Invalid status transition to pending") := by
  decide

/-! ## Escrow payment saga (`app/services/payments.py`)

The Stellar network and the local database's possible write failure are
external to the service; they enter the embedding as explicit oracle
arguments (`LedgerOutcome`, `DbWrite`) standing for, respectively, the
behaviour of `server.submit_transaction` and of the `db.add`/`db.commit`
pair inside `_record_payment`.  New payment rows get their id from an
explicit `newId` argument standing for the `uuid4` column default. -/

/-- `PaymentStatus` enum from `app/models/payment.py`. -/
inductive PaymentStatus where
  | pending
  | processing
  | completed
  | failed
  | refunded
deriving DecidableEq, Repr

/-- The fields of `app.models.payment.Payment` used by the saga. -/
structure Payment where
  id : Nat
  booking_id : Str
  transaction_hash : Option Str
  status : PaymentStatus
  amount : ℚ
  from_account : Str
  to_account : Str
  memo : Str
deriving DecidableEq, Repr

/-- The behaviour of `server.submit_transaction` on this call:
`accepted hash` models a successful response `{"hash": ...}`;
`badRequest` models `BadRequestError`/`BadResponseError` (ledger
rejection); `otherExn` models any other exception escaping the
submission call. -/
inductive LedgerOutcome where
  | accepted (hash : Str)
  | badRequest (msg : Str)
  | otherExn (msg : Str)
deriving DecidableEq, Repr

/-- Whether the `db.add`/`db.commit` inside `_record_payment` succeeds, or
raises with the given message. -/
inductive DbWrite where
  | ok
  | fail (msg : Str)
deriving DecidableEq, Repr

/-- `MAX_MEMO_LENGTH = 28` (`payments.py` line 54). -/
def MAX_MEMO_LENGTH : Nat := 28

/-- Rounding a rational toward zero, the semantics of Python
`decimal.ROUND_DOWN`. -/
def truncTowardZero (x : ℚ) : ℤ := if 0 ≤ x then ⌊x⌋ else -⌊-x⌋

/-- `_sanitize_amount` (`payments.py` lines 61-63):
`amount.quantize(Decimal("0.0000001"), rounding=ROUND_DOWN)`, i.e. the
amount rounded toward zero to a multiple of `10 ^ (-7)`. -/
def sanitizeAmount (x : ℚ) : ℚ := (truncTowardZero (x * 10 ^ 7) : ℚ) / 10 ^ 7

/-- The result dicts returned by the payment service: `success` is
`{"status": "success", "payment_id", "transaction_hash"}` from
`_record_payment`; `already` is the `{"status": "exists", ...}` dict;
`failure` is `{"status": "error", "message": ...}`. -/
inductive PayResult where
  | success (paymentId : Nat) (txHash : Option Str)
  | already (paymentId : Nat) (txHash : Option Str)
  | failure (msg : Str)
deriving DecidableEq, Repr

/-- `_record_payment` (`payments.py` lines 66-94): insert a new `Payment`
row and commit.  `Except.error m` models the write raising an exception
(to be caught differently by each caller); nothing is persisted in that
case. -/
def recordPayment (payments : List Payment) (bookingId : Str)
    (txHash : Option Str) (status : PaymentStatus) (amount : ℚ)
    (fromAcc toAcc memo : Str) (newId : Nat) (wr : DbWrite) :
    Except Str (PayResult × List Payment) :=
  match wr with
  | .fail m => .error m
  | .ok =>
    let p : Payment :=
      { id := newId, booking_id := bookingId, transaction_hash := txHash,
        status := status, amount := amount, from_account := fromAcc,
        to_account := toAcc, memo := memo }
    .ok (.success newId txHash, payments ++ [p])

/-- `release_payment` (`payments.py` lines 126-199).  Returns the response
dict together with the payment table after the call. -/
def releasePayment (escrowConfigured : Bool) (escrowPublic : Str)
    (payments : List Payment) (bookingId : Str) (artisanPublic : Str)
    (amount : ℚ) (ledger : LedgerOutcome) (wr : DbWrite) (newId : Nat) :
    PayResult × List Payment :=
  if !escrowConfigured then
    (.failure (str "Escrow key not configured"), payments)
  else
    match payments.find? (fun p => p.booking_id == bookingId && p.status == .pending) with
    | none =>
      (.failure (str "No held payment for booking or already released/refunded"), payments)
    | some _held =>
      match payments.find?
          (fun p => p.booking_id == bookingId && p.status == .completed) with
      | some alreadyReleased =>
        (.already alreadyReleased.id alreadyReleased.transaction_hash, payments)
      | none =>
        let memo := (str "release-" ++ bookingId).take MAX_MEMO_LENGTH
        match ledger with
        | .badRequest m => (.failure m, payments)
        | .otherExn m =>
          (.failure (str "Database error after Stellar success: " ++ m), payments)
        | .accepted txHash =>
          match recordPayment payments bookingId (some txHash) .completed amount
              escrowPublic artisanPublic memo newId wr with
          | .ok r => r
          | .error m =>
            (.failure (str "Database error after Stellar success: " ++ m), payments)

/-- `refund_payment` (`payments.py` lines 202-276), symmetric to
`release_payment` with final status `refunded` and `refund-` memo. -/
def refundPayment (escrowConfigured : Bool) (escrowPublic : Str)
    (payments : List Payment) (bookingId : Str) (clientPublic : Str)
    (amount : ℚ) (ledger : LedgerOutcome) (wr : DbWrite) (newId : Nat) :
    PayResult × List Payment :=
  if !escrowConfigured then
    (.failure (str "Escrow key not configured"), payments)
  else
    match payments.find? (fun p => p.booking_id == bookingId && p.status == .pending) with
    | none =>
      (.failure (str "No held payment for booking or already released/refunded"), payments)
    | some _held =>
      match payments.find?
          (fun p => p.booking_id == bookingId && p.status == .refunded) with
      | some alreadyRefunded =>
        (.already alreadyRefunded.id alreadyRefunded.transaction_hash, payments)
      | none =>
        let memo := (str "refund-" ++ bookingId).take MAX_MEMO_LENGTH
        match ledger with
        | .badRequest m => (.failure m, payments)
        | .otherExn m =>
          (.failure (str "Database error after Stellar success: " ++ m), payments)
        | .accepted txHash =>
          match recordPayment payments bookingId (some txHash) .refunded amount
              escrowPublic clientPublic memo newId wr with
          | .ok r => r
          | .error m =>
            (.failure (str "Database error after Stellar success: " ++ m), payments)

/-- Python `memo_text.replace("hold-", "")`: delete every (non-overlapping,
left-to-right) occurrence of `"hold-"`. -/
def stripHold : Str → Str
  | 'h' :: 'o' :: 'l' :: 'd' :: '-' :: rest => stripHold rest
  | c :: rest => c :: stripHold rest
  | [] => []

/-- Hexadecimal digit test for the `uuid.UUID` model. -/
def isHexDigit (c : Char) : Bool :=
  c.isDigit || ('a' ≤ c && c ≤ 'f') || ('A' ≤ c && c ≤ 'F')

/-- Model of Python stdlib `uuid.UUID(s)` acceptance on the hex-and-dash
strings arising here: accepted exactly when, ignoring dashes, the string
consists of exactly 32 hex digits.  (The stdlib accepts a few additional
decorated spellings such as braces or a `urn:` schema, none of which can
occur for a canonical booking-id string or a prefix of one.) -/
def isFullUuid (s : Str) : Bool :=
  ((s.filter (fun c => !(c == '-'))).length == 32)
    && (s.filter (fun c => !(c == '-'))).all isHexDigit

/-- The memo-to-booking resolution of `submit_signed_payment`
(`payments.py` lines 337-358), duplicated by the `/payments/submit`
endpoint (`endpoints/payments.py` lines 111-135): strip `"hold-"`, accept
the token directly if it parses as a full UUID, otherwise search the
stored booking ids for those starting with the token and demand exactly
one candidate. -/
def resolveBookingFromMemo (bookingIds : List Str) (memoText : Str) :
    Except Str Str :=
  let token := stripHold memoText
  if isFullUuid token then .ok token
  else
    match bookingIds.filter (fun b => token.isPrefixOf b) with
    | [b] => .ok b
    | _ => .error (str "Unable to resolve booking from transaction memo")

/-- The parts of the unsigned transaction built by `prepare_payment` that
the claims are about. -/
structure PreparedTx where
  memo : Str
  destination : Str
  amount : ℚ
  source : Str
deriving DecidableEq, Repr

/-- `prepare_payment` (`payments.py` lines 284-318): a pure builder — no
database argument, no state mutation. -/
def preparePayment (escrowPublic : Str) (bookingId : Str) (amount : ℚ)
    (clientPublic : Str) : PreparedTx :=
  { memo := (str "hold-" ++ bookingId).take MAX_MEMO_LENGTH
    destination := escrowPublic
    amount := sanitizeAmount amount
    source := clientPublic }

/-- A payment operation of a parsed envelope (`payment_op.destination`,
`payment_op.amount`). -/
structure PayOp where
  destination : Str
  amount : ℚ
deriving DecidableEq, Repr

/-- The parts of a parsed signed `TransactionEnvelope` consulted by
`submit_signed_payment`. -/
structure Envelope where
  operations : List PayOp
  memoText : Str
  source : Str
deriving DecidableEq, Repr

/-- `submit_signed_payment` (`payments.py` lines 320-369): structural
validation, ledger submission, memo resolution, then `_record_payment`
with status `pending`.  An exception from `_record_payment` (after the
ledger accepted) is caught by the function's generic
`except Exception` handler, producing
`"Invalid or rejected transaction: ..."`. -/
def submitSignedPayment (escrowPublic : Str) (bookingIds : List Str)
    (payments : List Payment) (env : Envelope) (ledger : LedgerOutcome)
    (wr : DbWrite) (newId : Nat) : PayResult × List Payment :=
  match env.operations with
  | [op] =>
    if op.destination == escrowPublic then
      match ledger with
      | .badRequest m => (.failure m, payments)
      | .otherExn m =>
        (.failure (str "Invalid or rejected transaction: " ++ m), payments)
      | .accepted txHash =>
        match resolveBookingFromMemo bookingIds env.memoText with
        | .error m => (.failure m, payments)
        | .ok bookingId =>
          match recordPayment payments bookingId (some txHash) .pending op.amount
              env.source escrowPublic env.memoText newId wr with
          | .ok r => r
          | .error m =>
            (.failure (str "Invalid or rejected transaction: " ++ m), payments)
    else (.failure (str "Transaction structure invalid"), payments)
  | _ => (.failure (str "Transaction structure invalid"), payments)

/-- The booking fields consulted by the `/payments/submit` endpoint:
`booking.id` (a UUID rendered as a string), `booking.client.user_id` (the
owning user) and `booking.estimated_cost`. -/
structure PBooking where
  id : Str
  owner_user_id : Nat
  estimated_cost : ℚ
deriving DecidableEq, Repr

/-- Result of the `/payments/submit` endpoint: a raised `HTTPException` or
the service's result dict passed through. -/
inductive EndpointResult where
  | httpError (code : Nat) (detail : Str)
  | ok (r : PayResult)
deriving DecidableEq, Repr

/-- The `/payments/submit` endpoint (`endpoints/payments.py` lines
90-156): optional verified-email gate, memo resolution (duplicating the
service's logic), ownership check, then `submit_signed_payment`; a
service-level `{"status": "error"}` is re-raised as HTTP 400. -/
def endpointSubmit (requireVerification : Bool) (escrowPublic : Str)
    (bookings : List PBooking) (payments : List Payment) (env : Envelope)
    (userId : Nat) (userVerified : Bool) (ledger : LedgerOutcome)
    (wr : DbWrite) (newId : Nat) : EndpointResult × List Payment :=
  if requireVerification && !userVerified then
    (.httpError 403 (str "Email verification required before submitting payments."),
     payments)
  else
    match resolveBookingFromMemo (bookings.map (fun b => b.id)) env.memoText with
    | .error m => (.httpError 400 m, payments)
    | .ok bookingId =>
      match bookings.find? (fun b => b.id == bookingId) with
      | none => (.httpError 404 (str "Booking not found"), payments)
      | some booking =>
        if !(booking.owner_user_id == userId) then
          (.httpError 403
            (str "You are not authorized to submit payment for this booking"), payments)
        else
          match submitSignedPayment escrowPublic (bookings.map (fun b => b.id))
              payments env ledger wr newId with
          | (.failure m, ps) => (.httpError 400 m, ps)
          | (r, ps) => (.ok r, ps)

/-! ### Concrete fixtures for the payment saga -/

/-- The escrow account address of the fixtures. -/
def escrowA : Str := str "GESCROW"

/-- A canonical 36-character booking id. -/
def bidA : Str := str "11111111-1111-1111-1111-111111111111"

/-- The truncated hold memo for `bidA`, as built by `prepare_payment`. -/
def memoA : Str := (str "hold-" ++ bidA).take 28

/-- A held (Pending) payment for `bidA`, as recorded by a successful
submission. -/
def heldA : Payment :=
  { id := 1, booking_id := bidA, transaction_hash := some (str "H0"),
    status := .pending, amount := 5, from_account := str "GCLIENT",
    to_account := escrowA, memo := memoA }

/-- A structurally valid signed envelope holding 5 units for `bidA`. -/
def envA : Envelope :=
  { operations := [{ destination := escrowA, amount := 5 }],
    memoText := memoA, source := str "GCLIENT" }

/-- C1, behaviour of the code at the failing input: starting from a single
held payment, a successful `release_payment` is followed by a
`refund_payment` that also succeeds — it submits a second ledger
transaction and records a `Refunded` row instead of failing with a
conflict — leaving both a `Completed` and a `Refunded` payment for the
booking. -/
theorem release_then_refund_both_succeed :
    (releasePayment true escrowA [heldA] bidA (str "GART") 5
        (.accepted (str "H1")) .ok 2).1 = .success 2 (some (str "H1"))
  ∧ (refundPayment true escrowA
        (releasePayment true escrowA [heldA] bidA (str "GART") 5
          (.accepted (str "H1")) .ok 2).2
        bidA (str "GCLIENT") 5 (.accepted (str "H2")) .ok 3).1
      = .success 3 (some (str "H2"))
  ∧ ((refundPayment true escrowA
        (releasePayment true escrowA [heldA] bidA (str "GART") 5
          (.accepted (str "H1")) .ok 2).2
        bidA (str "GCLIENT") 5 (.accepted (str "H2")) .ok 3).2.filter
          (fun p => p.booking_id == bidA && p.status == .completed)).length = 1
  ∧ ((refundPayment true escrowA
        (releasePayment true escrowA [heldA] bidA (str "GART") 5
          (.accepted (str "H1")) .ok 2).2
        bidA (str "GCLIENT") 5 (.accepted (str "H2")) .ok 3).2.filter
          (fun p => p.booking_id == bidA && p.status == .refunded)).length = 1 := by
  decide

/-- C3, behaviour of the code at the failing input: a successful release
returns success but leaves the held row in `Pending` status unchanged and
appends a second `Completed` row (no in-place mutation). -/
theorem release_appends_row_keeps_held_pending :
    releasePayment true escrowA [heldA] bidA (str "GART") 5
        (.accepted (str "H1")) .ok 2
      = (.success 2 (some (str "H1")),
         [heldA,
          { id := 2, booking_id := bidA, transaction_hash := some (str "H1"),
            status := .completed, amount := 5, from_account := escrowA,
            to_account := str "GART",
            memo := (str "release-" ++ bidA).take MAX_MEMO_LENGTH }]) := by
  decide

/-- C9, behaviour of the code at the failing input: when the ledger accepts
the transaction but the local record write fails, `release_payment` and
`refund_payment` surface the distinguished "Database error after Stellar
success" message, while `submit_signed_payment` reports the generic
"Invalid or rejected transaction" wrapper — the very same message it
produces for a plain submission exception — conflating the two outcomes. -/
theorem settled_but_unrecorded_error_paths :
    (releasePayment true escrowA [heldA] bidA (str "GART") 5
        (.accepted (str "H1")) (.fail (str "db down")) 2).1
      = .failure (str "Database error after Stellar success: db down")
  ∧ (refundPayment true escrowA [heldA] bidA (str "GCLIENT") 5
        (.accepted (str "H1")) (.fail (str "db down")) 2).1
      = .failure (str "Database error after Stellar success: db down")
  ∧ (submitSignedPayment escrowA [bidA] [] envA
        (.accepted (str "H1")) (.fail (str "db down")) 1).1
      = .failure (str "Invalid or rejected transaction: db down")
  ∧ (submitSignedPayment escrowA [bidA] [] envA
        (.otherExn (str "db down")) .ok 1).1
      = .failure (str "Invalid or rejected transaction: db down") := by
  decide

/-- Shared helper: on the success path (structurally valid single
operation to the escrow, ledger accepted, memo resolved, write succeeded)
`submit_signed_payment` unconditionally appends a fresh `Pending` row. -/
theorem submitSignedPayment_ok (escrowPublic : Str) (bookingIds : List Str)
    (payments : List Payment) (op : PayOp) (memoText source hash : Str)
    (newId : Nat) (b : Str)
    (hdest : op.destination = escrowPublic)
    (hres : resolveBookingFromMemo bookingIds memoText = .ok b) :
    submitSignedPayment escrowPublic bookingIds payments
        ⟨[op], memoText, source⟩ (.accepted hash) .ok newId
      = (.success newId (some hash),
         payments ++ [{ id := newId, booking_id := b, transaction_hash := some hash,
                        status := .pending, amount := op.amount,
                        from_account := source, to_account := escrowPublic,
                        memo := memoText }]) := by
  unfold submitSignedPayment
  simp [hdest, hres, recordPayment]

/-- C2 counterexample: submitting twice for the same booking (with a held
payment already recorded by the first call) records a second `Pending`
row — two held payments exist afterwards, and the second call returns a
fresh record rather than the existing one. -/
theorem submit_twice_two_held_payments :
    (submitSignedPayment escrowA [bidA]
        (submitSignedPayment escrowA [bidA] [] envA (.accepted (str "H1")) .ok 1).2
        envA (.accepted (str "H2")) .ok 2).1 = .success 2 (some (str "H2"))
  ∧ ((submitSignedPayment escrowA [bidA]
        (submitSignedPayment escrowA [bidA] [] envA (.accepted (str "H1")) .ok 1).2
        envA (.accepted (str "H2")) .ok 2).2.filter
          (fun p => p.booking_id == bidA && p.status == .pending)).length = 2 := by
  decide

/-- C2 amended: `submit_signed_payment` performs no held-payment check —
every structurally valid, ledger-accepted submission whose memo resolves
to a booking appends a fresh `Pending` payment row for it, regardless of
the payments already stored (in particular even when a held payment
already exists for that booking). -/
theorem submit_always_appends (escrowPublic : Str) (bookingIds : List Str)
    (payments : List Payment) (op : PayOp) (memoText source hash : Str)
    (newId : Nat) (b : Str)
    (hdest : op.destination = escrowPublic)
    (hres : resolveBookingFromMemo bookingIds memoText = .ok b) :
    submitSignedPayment escrowPublic bookingIds payments
        ⟨[op], memoText, source⟩ (.accepted hash) .ok newId
      = (.success newId (some hash),
         payments ++ [{ id := newId, booking_id := b, transaction_hash := some hash,
                        status := .pending, amount := op.amount,
                        from_account := source, to_account := escrowPublic,
                        memo := memoText }]) :=
  submitSignedPayment_ok escrowPublic bookingIds payments op memoText source hash
    newId b hdest hres

/-- Witness for the amended C2: the second submission on a store that
already holds `heldA` appends a second row. -/
theorem submit_always_appends_witness :
    submitSignedPayment escrowA [bidA] [heldA] envA (.accepted (str "H1")) .ok 2
      = (.success 2 (some (str "H1")),
         [heldA,
          { id := 2, booking_id := bidA, transaction_hash := some (str "H1"),
            status := .pending, amount := 5, from_account := str "GCLIENT",
            to_account := escrowA, memo := memoA }]) :=
  submit_always_appends escrowA [bidA] [heldA]
    { destination := escrowA, amount := 5 } memoA (str "GCLIENT") (str "H1") 2 bidA
    rfl (by rfl)

/-- C7: `_sanitize_amount` quantizes to 7 fractional digits by truncation
toward zero: `10.00000007` quantizes to `10.0000000` and not `10.0000001`;
every output is an integer multiple of `10 ^ (-7)`; and for every
nonnegative input (all amounts the service handles are positive) the
quantized amount never exceeds the input. -/
theorem sanitizeAmount_truncates :
    sanitizeAmount (1000000007 / 100000000 : ℚ) = 10
  ∧ sanitizeAmount (1000000007 / 100000000 : ℚ) ≠ 10 + 1 / 10 ^ 7
  ∧ (∀ x : ℚ, ∃ n : ℤ, sanitizeAmount x = (n : ℚ) / 10 ^ 7)
  ∧ (∀ x : ℚ, 0 ≤ x → sanitizeAmount x ≤ x) := by
  have hfl : ⌊(1000000007 / 100000000 * 10 ^ 7 : ℚ)⌋ = 100000000 := by
    rw [Int.floor_eq_iff]
    norm_num
  have h1 : sanitizeAmount (1000000007 / 100000000 : ℚ) = 10 := by
    unfold sanitizeAmount truncTowardZero
    rw [if_pos (by norm_num), hfl]
    norm_num
  refine ⟨h1, by rw [h1]; norm_num, ?_, ?_⟩
  · intro x
    exact ⟨truncTowardZero (x * 10 ^ 7), rfl⟩
  · intro x hx
    have hx7 : (0 : ℚ) ≤ x * 10 ^ 7 := by positivity
    unfold sanitizeAmount truncTowardZero
    rw [if_pos hx7]
    rw [div_le_iff₀ (by norm_num : (0 : ℚ) < 10 ^ 7)]
    exact Int.floor_le _

/-- Witness for C7: a concrete nonnegative amount is not exceeded by its
quantization. -/
theorem sanitizeAmount_truncates_witness :
    (0 : ℚ) ≤ 3 / 2 ∧ sanitizeAmount (3 / 2) ≤ 3 / 2 :=
  ⟨by norm_num, sanitizeAmount_truncates.2.2.2 (3 / 2) (by norm_num)⟩

/-- Taking 28 characters of `"hold-" ++ s` keeps the tag and the first 23
characters of `s`. -/
theorem holdMemo_take (s : Str) :
    (str "hold-" ++ s).take 28 = str "hold-" ++ s.take 23 := rfl

/-- `replace("hold-", "")` deletes a leading `"hold-"`. -/
theorem stripHold_hold_append (s : Str) :
    stripHold (str "hold-" ++ s) = stripHold s := rfl

/-- A string of fewer than 32 characters never parses as a full UUID. -/
theorem isFullUuid_short (s : Str) (h : s.length < 32) : isFullUuid s = false := by
  unfold isFullUuid
  have hle := List.length_filter_le (fun c => !(c == '-')) s
  have hne : (s.filter (fun c => !(c == '-'))).length ≠ 32 := by omega
  simp [hne]

/-- C8: `prepare_payment` builds the memo as `"hold-" + booking_id`
truncated to 28 bytes; for a booking id long enough to be truncated (here:
one whose first 23 characters contain no `"hold-"` occurrence, as is the
case for canonical hex-and-dash ids), `submit_signed_payment`'s resolution
maps the memo back to the unique stored booking id starting with the
truncated token — which is the original id whenever the original is stored
— and fails with the unable-to-resolve error when the number of matching
bookings is not exactly one. -/
theorem prepare_memo_roundtrip (escrowPublic clientPublic bookingId : Str)
    (amount : ℚ) (bookingIds : List Str)
    (hlen : 23 < bookingId.length)
    (hfix : stripHold (bookingId.take 23) = bookingId.take 23) :
    ((preparePayment escrowPublic bookingId amount clientPublic).memo
        = str "hold-" ++ bookingId.take 23
    ∧ (∀ b : Str,
        bookingIds.filter (fun c => (bookingId.take 23).isPrefixOf c) = [b] →
        resolveBookingFromMemo bookingIds
            (preparePayment escrowPublic bookingId amount clientPublic).memo = .ok b
        ∧ (bookingId ∈ bookingIds → b = bookingId))
    ∧ ((bookingIds.filter (fun c => (bookingId.take 23).isPrefixOf c)).length ≠ 1 →
        resolveBookingFromMemo bookingIds
            (preparePayment escrowPublic bookingId amount clientPublic).memo
          = .error (str "Unable to resolve booking from transaction memo"))) := by
  have hmemo : (preparePayment escrowPublic bookingId amount clientPublic).memo
      = str "hold-" ++ bookingId.take 23 := holdMemo_take bookingId
  have htoken : stripHold (str "hold-" ++ bookingId.take 23) = bookingId.take 23 := by
    rw [stripHold_hold_append, hfix]
  have hlen23 : (bookingId.take 23).length = 23 := by
    rw [List.length_take]; omega
  have huuid : isFullUuid (bookingId.take 23) = false :=
    isFullUuid_short _ (by omega)
  refine ⟨hmemo, ?_, ?_⟩
  · intro b hb
    constructor
    · rw [hmemo]
      unfold resolveBookingFromMemo
      simp only [htoken, huuid, hb, Bool.false_eq_true, if_false]
    · intro hmem
      have hpre : (bookingId.take 23).isPrefixOf bookingId = true := by
        rw [List.isPrefixOf_iff_prefix]
        exact List.take_prefix 23 bookingId
      have hmemf : bookingId ∈
          bookingIds.filter (fun c => (bookingId.take 23).isPrefixOf c) :=
        List.mem_filter.mpr ⟨hmem, hpre⟩
      rw [hb] at hmemf
      have : bookingId = b := by simpa using hmemf
      exact this.symm
  · intro hne
    rw [hmemo]
    unfold resolveBookingFromMemo
    simp only [htoken, huuid, Bool.false_eq_true, if_false]
    cases hfil : bookingIds.filter (fun c => (bookingId.take 23).isPrefixOf c) with
    | nil => rfl
    | cons a t =>
      cases t with
      | nil => rw [hfil] at hne; simp at hne
      | cons a2 t2 => rfl

/-- Witness for C8: the fixture booking id is longer than 23 characters,
and its truncated prepare-memo resolves back to it through the unique
stored candidate. -/
theorem prepare_memo_roundtrip_witness :
    23 < bidA.length
  ∧ resolveBookingFromMemo [bidA]
      (preparePayment escrowA bidA 5 (str "GCLIENT")).memo = .ok bidA := by
  refine ⟨by decide, ?_⟩
  exact ((prepare_memo_roundtrip escrowA (str "GCLIENT") bidA 5 [bidA]
    (by decide) (by rfl)).2.1 bidA (by decide)).1

/-- C10: on every ledger-accepted, structurally valid submission whose memo
resolves to a stored booking owned by the caller, the `/payments/submit`
endpoint records the held payment's amount exactly as the envelope's
operation amount; the booking's `estimated_cost` is universally quantified
and unconstrained (no comparison against it occurs anywhere on the path),
and `prepare_payment` is stateless, so no previously prepared amount can be
consulted either. -/
theorem endpoint_submit_records_op_amount
    (requireVerification : Bool) (escrowPublic : Str) (bookings : List PBooking)
    (payments : List Payment) (op : PayOp) (memoText source hash : Str)
    (userId newId : Nat) (userVerified : Bool) (bk : PBooking)
    (hverif : (requireVerification && !userVerified) = false)
    (hdest : op.destination = escrowPublic)
    (hamt : 0 < op.amount)
    (hres : resolveBookingFromMemo (bookings.map (fun b => b.id)) memoText = .ok bk.id)
    (hfind : bookings.find? (fun b => b.id == bk.id) = some bk)
    (howner : bk.owner_user_id = userId) :
    endpointSubmit requireVerification escrowPublic bookings payments
        ⟨[op], memoText, source⟩ userId userVerified (.accepted hash) .ok newId
      = (.ok (.success newId (some hash)),
         payments ++ [{ id := newId, booking_id := bk.id, transaction_hash := some hash,
                        status := .pending, amount := op.amount,
                        from_account := source, to_account := escrowPublic,
                        memo := memoText }]) := by
  have hsub := submitSignedPayment_ok escrowPublic (bookings.map (fun b => b.id))
    payments op memoText source hash newId bk.id hdest hres
  unfold endpointSubmit
  rw [hverif]
  simp only [hres, hfind, howner, hsub, beq_self_eq_true, Bool.not_true,
    Bool.false_eq_true, if_false]

/-- Witness for C10: a booking with estimated cost 999 receives a held
payment of 5 — the operation amount — recorded verbatim. -/
theorem endpoint_submit_records_op_amount_witness :
    endpointSubmit false escrowA [⟨bidA, 7, 999⟩] [] envA 7 false
        (.accepted (str "H1")) .ok 1
      = (.ok (.success 1 (some (str "H1"))),
         [{ id := 1, booking_id := bidA, transaction_hash := some (str "H1"),
            status := .pending, amount := 5, from_account := str "GCLIENT",
            to_account := escrowA, memo := memoA }]) :=
  endpoint_submit_records_op_amount false escrowA [⟨bidA, 7, 999⟩] []
    { destination := escrowA, amount := 5 } memoA (str "GCLIENT") (str "H1") 7 1
    false ⟨bidA, 7, 999⟩ rfl rfl (by norm_num) (by rfl) (by rfl) rfl

end StellArts
